import Mathlib

/-!
Shallow embedding of the lock-free continuation ("cont") primitive of the
tbb_future_cont repository (src/tbbtest/main.cpp, src/sugar/main.cpp,
src/sugar/define_task_block_example.h) and proofs about it.

Modelling conventions:
- The atomic head pointer `std::atomic<cont_node*> _head` is modelled as a
  pair of its low tag bit (`ready : Bool`, set by `set_ready`) and the
  linked chain it points to (`chain : List cont_node`, head first).
  A null head with clear bit is `⟨false, []⟩`.
- `tbb::task*` pointers are task identifiers (`Nat`); `cont_node*`
  addresses are node identifiers (`Nat`); a `cont_node` records the task
  bound to it (`task` field of the C++ struct) and its identity.
- Each successful CAS is an atomic read-modify-write, so every complete
  operation on `_head` linearizes; interleavings are sequences of such
  linearized actions.  Where a claim is about the window between a load
  and its CAS (the single-attempt variant in src/sugar/main.cpp), the
  operation is modelled as a function of the anchor state observed by the
  load and the anchor state current at the CAS.
- `assert(...)` is modelled as an explicit `ok : Bool` outcome: `false`
  means the assertion fired (a contract violation) and the state is left
  as it was at the assert.
-/

/-- Embeds `struct cont_node { tbb::task* task; cont_node* next; }`:
`task` is the bound task id, `id` the node's address identity; the `next`
field is implicit in the position inside the `chain` list. -/
structure cont_node where
  task : Nat
  id : Nat
deriving DecidableEq

/-- Embeds the state of `class cont_base`: the atomic `_head` tagged
pointer, split into its low readiness bit and the chain it references. -/
structure cont_base where
  ready : Bool
  chain : List cont_node
deriving DecidableEq

/-- Embeds `cont_base::cont_base()`: `_head = NULL`, so the bit is clear
and the chain is empty. -/
def cont_base_init : cont_base := ⟨false, []⟩

/-- Embeds `cont_base::is_ready`: test of the low bit of `_head`. -/
def is_ready (s : cont_base) : Bool := s.ready

/-- Linking a fresh node carrying task `t` at the head of the chain
(`new_head->task = t; new_head->next = old_head; _head = new_head`). -/
def reg_push (t n : Nat) (s : cont_base) : cont_base :=
  ⟨s.ready, ⟨t, n⟩ :: s.chain⟩

/-- Embeds the retry-loop `cont_base::try_register_successor` of
src/tbbtest/main.cpp (identical in src/sugar/define_task_block_example.h)
at its linearization point: the loop exits either at a load that sees the
bit set (return `false`, state untouched) or at a successful CAS that
links the node (return `true`).  The returned pair is (result, state of
`_head` after the call). -/
def try_register_successor (t n : Nat) (s : cont_base) : Bool × cont_base :=
  if s.ready then (false, s)
  else (true, reg_push t n s)

/-- Embeds the single-attempt `cont_base::try_register_successor` of
src/sugar/main.cpp, which performs one load and one
`compare_exchange_strong` with no retry.  `s0` is the anchor state
observed by the load, `s1` the anchor state current when the CAS
executes (equal to `s0` when nothing intervened).  If the load sees the
bit set the function returns `false`; otherwise the CAS succeeds exactly
when the anchor is unchanged, and on failure the function returns
`false` with the anchor left at `s1`. -/
def try_register_sugar (t n : Nat) (s0 s1 : cont_base) : Bool × cont_base :=
  if s0.ready then (false, s1)
  else if s1 = s0 then (true, reg_push t n s0)
  else (false, s1)

/-- Embeds the retry-loop `try_register_successor` of
src/tbbtest/main.cpp driven by an explicit interference schedule: the
list gives the anchor state observed at each successive atomic access
(load, CAS, load, CAS, ...), so concurrent registrations and closings by
other threads appear as changes between consecutive entries.  Returns
`none` when the schedule is exhausted before the loop exits. -/
def try_register_loop (t n : Nat) : List cont_base → Option (Bool × cont_base)
  | [] => none
  | s0 :: rest =>
    if s0.ready then some (false, s0)
    else
      match rest with
      | [] => none
      | s1 :: rest2 =>
        if s1 = s0 then some (true, reg_push t n s1)
        else try_register_loop t n rest2

/-- Outcome of `cont_base::set_ready`: `ok = false` when the entry
`assert(!is_ready())` fires, the anchor state after the call, and the
list of nodes walked by the notification loop, in walk order. -/
structure set_ready_result where
  ok : Bool
  state : cont_base
  visited : List cont_node
deriving DecidableEq

/-- Embeds `cont_base::set_ready` (identical in all three files): assert
the bit is clear, CAS the bit on preserving the chain, then walk the
chain captured by the successful CAS (`old_head`). -/
def set_ready (s : cont_base) : set_ready_result :=
  if s.ready then ⟨false, s, []⟩
  else ⟨true, ⟨true, s.chain⟩, s.chain⟩

/-- Embeds `tbb::task::decrement_ref_count` on the pending-count map
(task id to reference count): subtract one from the given task's
count. -/
def decrement_ref_count (tid : Nat) (counts : Nat → Int) : Nat → Int :=
  fun x => if x = tid then counts x - 1 else counts x

/-- Embeds the notification loop of `set_ready`: walk the captured
chain, decrement each node's task's reference count, and spawn a task
when its decrement returns zero.  Returns the final counts and the list
of spawned task ids in spawn order. -/
def notify_walk : List cont_node → (Nat → Int) → ((Nat → Int) × List Nat)
  | [], counts => (counts, [])
  | node :: rest, counts =>
    let counts2 := decrement_ref_count node.task counts
    let r := notify_walk rest counts2
    (r.1, (if counts2 node.task = 0 then [node.task] else []) ++ r.2)

/-- A sequence of `try_register_successor` calls applied in order to one
cont, collecting each call's boolean result and the final anchor state.
Each list entry is (task id, node id). -/
def register_chain : List (Nat × Nat) → cont_base → List Bool × cont_base
  | [], s => ([], s)
  | p :: rest, s =>
    let r := try_register_successor p.1 p.2 s
    let r2 := register_chain rest r.2
    (r.1 :: r2.1, r2.2)

/-- Embeds the value slot of `cont<T>` for `T = int`: the `_has_value`
flag and `_storage` (`none` models storage that was never constructed). -/
structure cont_int where
  base : cont_base
  has_value : Bool
  storage : Option Int
deriving DecidableEq

/-- Embeds `cont<T>::cont()`: default `cont_base`, `_has_value = false`,
uninitialized storage. -/
def cont_init : cont_int := ⟨cont_base_init, false, none⟩

/-- Embeds `cont<T>::emplace`: `assert(!is_ready())`, then construct the
value in storage and set `_has_value`.  The boolean is `false` when the
assertion fires (state left unchanged at the assert). -/
def emplace (v : Int) (s : cont_int) : Bool × cont_int :=
  if s.base.ready then (false, s)
  else (true, { s with has_value := true, storage := some v })

/-- Outcome of `cont<T>::operator*`: whether an assertion fired, and the
raw storage contents returned. -/
structure deref_result where
  asserted : Bool
  value : Option Int
deriving DecidableEq

/-- Embeds `cont<T>::operator*`:
`return *reinterpret_cast<T*>(&_storage);` — the body performs no
readiness or has-value check and has no assertion, so `asserted` is
always `false` and the raw storage is returned as-is. -/
def op_star (s : cont_int) : deref_result := ⟨false, s.storage⟩

/-- The operations callable on one `cont<int>` instance, for stating
monotonicity of readiness across every operation of the class. -/
inductive cont_op where
  | do_set_ready
  | do_register (t n : Nat)
  | do_emplace (v : Int)
  | do_deref
deriving DecidableEq

/-- State transformation of each operation on a `cont<int>` instance
(assertion failures leave the state as the code does at the assert;
`operator*` does not modify the object). -/
def apply_op (s : cont_int) : cont_op → cont_int
  | .do_set_ready => { s with base := (set_ready s.base).state }
  | .do_register t n => { s with base := (try_register_successor t n s.base).2 }
  | .do_emplace v => (emplace v s).2
  | .do_deref => s

/-- Folding a sequence of operations over a `cont<int>` instance. -/
def apply_ops (s : cont_int) : List cont_op → cont_int :=
  List.foldl apply_op s

/-!
Sequential model of `spawn_when_ready` (the JoinGate entry point).
The registering thread runs alone against a fixed snapshot of the conts:
the model records the exact ordered trace of atomic reference-count
operations on the target task and of registration attempts, which is
what claims C2 and C5 are about.
-/

/-- One observable action of `spawn_when_ready` on the target task `t`:
an atomic `add_ref_count(delta)`, a `try_register_successor` attempt on
cont number `i` with its boolean result, or `tbb::task::spawn(t)`. -/
inductive swr_event where
  | add_ref (delta : Int)
  | reg_attempt (i : Nat) (ok : Bool)
  | spawn
deriving DecidableEq

/-- Result of a sequential `spawn_when_ready` call: the ordered trace of
its actions, the final pending count of the task, and whether the call
spawned the task. -/
structure swr_result where
  trace : List swr_event
  pending : Int
  spawned : Bool
deriving DecidableEq

/-- Embeds the registration loop of `spawn_when_ready`: attempts
`try_register_successor(&t, &nodes[i])` on each cont in order (node id =
loop index), collecting the attempt events and `num_inputs_already_ok`,
the count of failed registrations.  The loop performs no reference-count
operation. -/
def swr_reg_loop (t : Nat) : List cont_base → Nat → List swr_event × Nat
  | [], _ => ([], 0)
  | c :: rest, i =>
    let ok := (try_register_successor t i c).1
    let r := swr_reg_loop t rest (i + 1)
    (swr_event.reg_attempt i ok :: r.1, (if ok then 0 else 1) + r.2)

/-- Embeds `spawn_when_ready(t, conts, nodes, num_conts)` run without
interference, for both variants.  `guarded = false` is the
src/tbbtest/main.cpp body (unconditional final
`add_ref_count(-num_inputs_already_ok)`); `guarded = true` is the
src/sugar/main.cpp and src/sugar/define_task_block_example.h body, where
that bulk operation is wrapped in `if (num_inputs_already_ok > 0)`.
`p0` is the task's pending count on entry. -/
def spawn_when_ready (guarded : Bool) (t : Nat) (p0 : Int)
    (conts : List cont_base) : swr_result :=
  let n : Int := conts.length
  let p1 := p0 + n
  let r := swr_reg_loop t conts 0
  let already := r.2
  if guarded && already == 0 then
    ⟨swr_event.add_ref n :: r.1, p1, false⟩
  else
    let p2 := p1 - already
    ⟨swr_event.add_ref n :: r.1
        ++ swr_event.add_ref (-(already : Int))
        :: (if p2 = 0 then [swr_event.spawn] else []),
      p2, p2 == 0⟩

/-!
Interleaved model of one JoinGate run: the registering thread executes
`spawn_when_ready` on a task with N conts while each cont's producer
runs `set_ready` concurrently.  Every mutation of shared state in the
C++ is one atomic action (a CAS on a cont's `_head`, or one atomic
reference-count operation), so an execution is a sequence of these
actions.  In this scenario the registering thread is the only
registrant, so each cont's chain is empty or holds the task's one node;
`regd i` records whether that node is linked in cont `i`'s chain.
-/

/-- One atomic action of the interleaved JoinGate run. -/
inductive gate_event where
  | reg_step
  | close (i : Nat)
  | notify (i : Nat)
deriving DecidableEq

/-- Shared and thread-local state of the interleaved JoinGate run over
its conts: per-cont readiness bit, whether the task's node is linked in
the cont's chain, whether the producer's notification walk has run; the
task's pending count and spawn count; the registering thread's program
counter (0 = before the initial `add_ref_count(N)`, 1..N = before the
attempt on cont pc-1, N+1 = before the bulk subtraction, N+2 = done) and
its local `num_inputs_already_ok`. -/
structure gate_state where
  readys : List Bool
  regd : List Bool
  notified : List Bool
  pending : Int
  already_ok : Nat
  pc : Nat
  spawns : Nat
deriving DecidableEq

/-- Initial state of a JoinGate run over `n` conts, all still open, with
the task's pending count 0 (a freshly allocated child task). -/
def gate_init (n : Nat) : gate_state :=
  ⟨List.replicate n false, List.replicate n false, List.replicate n false,
    0, 0, 0, 0⟩

/-- One atomic step of the interleaved run.  `reg_step` advances the
registering thread: the initial `add_ref_count(N)`, then one linearized
`try_register_successor` per cont (failing exactly when the cont's bit
is set, linking otherwise), then the final bulk subtraction (skipped in
the guarded variant when `num_inputs_already_ok` is 0) with its spawn on
zero.  `close i` is producer i's successful `set_ready` CAS.  `notify i`
is producer i's subsequent notification walk: it decrements the task's
count once exactly when the task's node was linked at the close, and
spawns on zero.  A disabled action leaves the state unchanged. -/
def gate_step (guarded : Bool) (st : gate_state) : gate_event → gate_state
  | .reg_step =>
    if st.pc = 0 then
      { st with pending := st.pending + st.readys.length, pc := 1 }
    else if st.pc ≤ st.readys.length then
      let i := st.pc - 1
      if st.readys.getD i false then
        { st with already_ok := st.already_ok + 1, pc := st.pc + 1 }
      else
        { st with regd := st.regd.set i true, pc := st.pc + 1 }
    else if st.pc = st.readys.length + 1 then
      if guarded && st.already_ok == 0 then
        { st with pc := st.pc + 1 }
      else
        { st with
            pending := st.pending - st.already_ok,
            spawns := if st.pending - st.already_ok = 0
              then st.spawns + 1 else st.spawns,
            pc := st.pc + 1 }
    else st
  | .close i =>
    if st.readys.getD i false then st
    else { st with readys := st.readys.set i true }
  | .notify i =>
    if st.readys.getD i false && !(st.notified.getD i false) then
      if st.regd.getD i false then
        { st with
            notified := st.notified.set i true,
            pending := st.pending - 1,
            spawns := if st.pending - 1 = 0 then st.spawns + 1 else st.spawns }
      else { st with notified := st.notified.set i true }
    else st

/-- Running a schedule (one interleaving) of the JoinGate system. -/
def run_gate (guarded : Bool) (st : gate_state) (evs : List gate_event) :
    gate_state :=
  evs.foldl (gate_step guarded) st

/-!
Theorems.
-/

/-- C1: the claim says the task is submitted to the scheduler exactly
once under every interleaving.  The src/tbbtest/main.cpp variant
violates it: with one cont and pending count 0, if the producer's
`set_ready` (close CAS plus notification) runs entirely between the
registration loop and the final `add_ref_count(-0)`, the notification
decrements the count to 0 and spawns, and then the registering thread's
`add_ref_count(0)` also returns 0 and spawns the task a second time.
The guarded variant of src/sugar/main.cpp skips the final bulk operation
when `num_inputs_already_ok` is 0 and spawns exactly once on the same
interleaving.  The spawn count is 2 even though both spawns happen after
the cont is ready. -/
theorem C1_double_spawn :
    (run_gate false (gate_init 1)
      [.reg_step, .reg_step, .close 0, .notify 0, .reg_step]).spawns = 2
    ∧ (run_gate true (gate_init 1)
      [.reg_step, .reg_step, .close 0, .notify 0, .reg_step]).spawns = 1
    ∧ (run_gate false (gate_init 1)
      [.reg_step, .reg_step, .close 0, .notify 0, .reg_step]).readys
        = [true] := by
  decide

/-- C2: the claim says a JoinGate call over zero futures on a task with
pending count 0 submits the task synchronously within the call.  The
guarded variant (src/sugar/main.cpp, src/sugar/define_task_block_example.h)
violates it: with `num_conts = 0` the loop never runs,
`num_inputs_already_ok` stays 0, the `if (num_inputs_already_ok > 0)`
guard skips the final `add_ref_count`/spawn branch, and the task is
never spawned; its whole trace is the initial `add_ref_count(0)` with no
registration attempt.  The unguarded src/tbbtest/main.cpp variant does
spawn it synchronously. -/
theorem C2_empty_join :
    (spawn_when_ready true 7 0 []).spawned = false
    ∧ (spawn_when_ready true 7 0 []).trace = [swr_event.add_ref 0]
    ∧ (spawn_when_ready false 7 0 []).spawned = true
    ∧ (spawn_when_ready false 7 0 []).trace
        = [swr_event.add_ref 0, swr_event.add_ref 0, swr_event.spawn] := by
  decide

/-- C3: the claim says every `try_register_successor` call returns false
if and only if the list is closed.  The single-attempt variant of
src/sugar/main.cpp violates the only-if direction, contradicting its own
doc comment ("This fails (and returns false) if the successor queue has
already been closed"): when another waiter links a node between the load
(anchor open, empty chain) and the `compare_exchange_strong` (anchor
open, chain `[⟨9,7⟩]`), the CAS fails and the call returns false with
the list still open, while the retry-loop variant of
src/tbbtest/main.cpp under the same interference retries and links the
node. -/
theorem C3_sugar_false_on_open :
    (try_register_sugar 5 1 ⟨false, []⟩ ⟨false, [⟨9, 7⟩]⟩).1 = false
    ∧ (try_register_sugar 5 1 ⟨false, []⟩ ⟨false, [⟨9, 7⟩]⟩).2.ready = false
    ∧ try_register_loop 5 1
        [⟨false, []⟩, ⟨false, [⟨9, 7⟩]⟩, ⟨false, [⟨9, 7⟩]⟩, ⟨false, [⟨9, 7⟩]⟩]
        = some (true, ⟨false, [⟨5, 1⟩, ⟨9, 7⟩]⟩) := by
  decide

/-- C6 counterexample: the claim says dereferencing an unready cont
triggers a fatal assertion rather than returning a value.  The code of
`cont<T>::operator*` has no assertion at all: on a cont that has been
emplaced but never set ready, it returns the stored value with no
assertion fired. -/
theorem C6_deref_returns_value :
    (op_star (emplace 1337 cont_init).2).asserted = false
    ∧ (op_star (emplace 1337 cont_init).2).value = some 1337
    ∧ (emplace 1337 cont_init).2.base.ready = false := by
  decide

/-- C6 amended: `operator*` performs no readiness check and never
asserts; it returns the raw storage unconditionally (undefined contents
when nothing was emplaced).  The fatal `assert(!is_ready())` contract
checks guard only `set_ready` (double completion) and `emplace` after
readiness, not value reads. -/
theorem C6_amended_no_assert_on_read :
    (∀ s : cont_int, (op_star s).asserted = false
      ∧ (op_star s).value = s.storage)
    ∧ (∀ (v : Int) (s : cont_int), s.base.ready = true →
        (emplace v s).1 = false ∧ (emplace v s).2 = s)
    ∧ (∀ s : cont_base, s.ready = true → (set_ready s).ok = false) := by
  refine ⟨fun s => ⟨rfl, rfl⟩, fun v s h => ?_, fun s h => ?_⟩
  · simp [emplace, h]
  · simp [set_ready, h]

/-- C6 amended witness: the amended theorem applied to a ready cont
holding 5. -/
theorem C6_amended_no_assert_on_read_witness :
    (op_star ⟨⟨true, []⟩, true, some 5⟩).asserted = false
    ∧ (emplace 9 ⟨⟨true, []⟩, true, some 5⟩).1 = false
    ∧ (set_ready ⟨true, []⟩).ok = false :=
  ⟨(C6_amended_no_assert_on_read.1 ⟨⟨true, []⟩, true, some 5⟩).1,
   (C6_amended_no_assert_on_read.2.1 9 ⟨⟨true, []⟩, true, some 5⟩ rfl).1,
   C6_amended_no_assert_on_read.2.2 ⟨true, []⟩ rfl⟩

/-- C7: a first `set_ready` on an open cont passes the
`assert(!is_ready())` and closes the list; a second `set_ready` on the
same instance fires the assertion (contract violation) and leaves the
anchor, hence the waiter chain, untouched. -/
theorem C7_double_set_ready (s : cont_base) (h : s.ready = false) :
    (set_ready s).ok = true
    ∧ (set_ready s).state.ready = true
    ∧ (set_ready (set_ready s).state).ok = false
    ∧ (set_ready (set_ready s).state).state = (set_ready s).state := by
  simp [set_ready, h]

/-- C7 witness: the theorem applied to an open cont with one queued
waiter. -/
theorem C7_double_set_ready_witness :
    (set_ready ⟨false, [⟨3, 0⟩]⟩).ok = true
    ∧ (set_ready (set_ready ⟨false, [⟨3, 0⟩]⟩).state).ok = false :=
  ⟨(C7_double_set_ready ⟨false, [⟨3, 0⟩]⟩ rfl).1,
   (C7_double_set_ready ⟨false, [⟨3, 0⟩]⟩ rfl).2.2.1⟩

/-- Helper for C8: on an open cont every `try_register_successor` call
succeeds and pushes its node, so a sequence of registrations leaves the
list open with the nodes in reverse registration order ahead of the
previous chain. -/
theorem register_chain_open (regs : List (Nat × Nat)) :
    ∀ c : List cont_node, register_chain regs ⟨false, c⟩
      = (List.replicate regs.length true,
         ⟨false, (regs.map fun p => cont_node.mk p.1 p.2).reverse ++ c⟩) := by
  induction regs with
  | nil => intro c; simp [register_chain]
  | cons p rest ih =>
    intro c
    simp [register_chain, try_register_successor, reg_push, ih (⟨p.1, p.2⟩ :: c),
      List.replicate_succ]

/-- C8: k registrations on one open list (all succeed) followed by a
single `set_ready` make the broadcast visit the k registered nodes in
exactly the reverse of their registration order: registrations push at
the head of the chain and the notification loop walks the chain from the
head. -/
theorem C8_lifo_order (regs : List (Nat × Nat)) :
    (register_chain regs cont_base_init).1 = List.replicate regs.length true
    ∧ (set_ready (register_chain regs cont_base_init).2).visited
        = (regs.map fun p => cont_node.mk p.1 p.2).reverse := by
  have h := register_chain_open regs []
  constructor
  · simpa [cont_base_init] using congrArg Prod.fst h
  · rw [show cont_base_init = (⟨false, []⟩ : cont_base) from rfl, h]
    simp [set_ready]

/-- Helper for C9: every single operation preserves an already-set
readiness bit. -/
theorem apply_op_ready_mono (s : cont_int) (op : cont_op)
    (h : s.base.ready = true) : (apply_op s op).base.ready = true := by
  cases op <;> simp [apply_op, set_ready, try_register_successor, emplace, h]

/-- Helper for C9: operation sequences preserve an already-set readiness
bit. -/
theorem apply_ops_ready_mono (ops : List cont_op) :
    ∀ s : cont_int, s.base.ready = true → (apply_ops s ops).base.ready = true := by
  induction ops with
  | nil => intro s h; simpa [apply_ops] using h
  | cons op rest ih =>
    intro s h
    simpa [apply_ops] using ih (apply_op s op) (apply_op_ready_mono s op h)

/-- Helper for C9: every operation other than `set_ready` leaves the
readiness bit clear when it was clear. -/
theorem apply_op_ready_open (s : cont_int) (op : cont_op)
    (hop : op ≠ cont_op.do_set_ready) (h : s.base.ready = false) :
    (apply_op s op).base.ready = false := by
  cases op with
  | do_set_ready => exact absurd rfl hop
  | do_register t n => simp [apply_op, try_register_successor, reg_push, h]
  | do_emplace v => simp [apply_op, emplace, h]
  | do_deref => simpa [apply_op] using h

/-- Helper for C9: a sequence with no `set_ready` leaves the readiness
bit clear when it was clear. -/
theorem apply_ops_ready_open (ops : List cont_op) :
    ∀ s : cont_int, cont_op.do_set_ready ∉ ops → s.base.ready = false →
      (apply_ops s ops).base.ready = false := by
  induction ops with
  | nil => intro s _ h; simpa [apply_ops] using h
  | cons op rest ih =>
    intro s hmem h
    have h1 : op ≠ cont_op.do_set_ready := by
      intro he
      exact hmem (by rw [he]; exact List.mem_cons_self _ _)
    have h2 : cont_op.do_set_ready ∉ rest :=
      fun hr => hmem (List.mem_cons_of_mem _ hr)
    simpa [apply_ops] using ih (apply_op s op) h2 (apply_op_ready_open s op h1 h)

/-- C9: readiness is terminal and monotone.  Once `is_ready` is true, no
operation of the class (`set_ready` asserting, either registration
variant, `emplace`, value reads) ever clears the bit; a fresh cont
starts with the bit clear; any sequence of operations without a
`set_ready` keeps it clear; and the single-attempt registration variant
of src/sugar/main.cpp leaves the bit exactly as the anchor had it at its
CAS, so it too never clears it. -/
theorem C9_ready_monotone :
    (∀ (s : cont_int) (op : cont_op), is_ready s.base = true →
        is_ready (apply_op s op).base = true)
    ∧ (∀ (s : cont_int) (ops : List cont_op), is_ready s.base = true →
        is_ready (apply_ops s ops).base = true)
    ∧ is_ready cont_init.base = false
    ∧ (∀ ops : List cont_op, cont_op.do_set_ready ∉ ops →
        is_ready (apply_ops cont_init ops).base = false)
    ∧ (∀ (t n : Nat) (s0 s1 : cont_base),
        ((try_register_sugar t n s0 s1).2).ready = s1.ready) := by
  refine ⟨fun s op h => apply_op_ready_mono s op h,
    fun s ops h => apply_ops_ready_mono ops s h,
    rfl,
    fun ops hmem => apply_ops_ready_open ops cont_init hmem rfl,
    fun t n s0 s1 => ?_⟩
  by_cases h0 : s0.ready = true
  · simp [try_register_sugar, h0]
  · by_cases h1 : s1 = s0
    · simp [try_register_sugar, h0, h1, reg_push]
    · simp [try_register_sugar, h0, h1]

/-- C9 witness: the monotonicity clause applied to a ready cont and a
registration, and the open-preservation clause applied to a fresh cont
with a registration and an emplace. -/
theorem C9_ready_monotone_witness :
    is_ready (apply_ops ⟨⟨true, []⟩, false, none⟩ [cont_op.do_register 1 0]).base
        = true
    ∧ is_ready
        (apply_ops cont_init [cont_op.do_register 1 0, cont_op.do_emplace 4]).base
        = false :=
  ⟨C9_ready_monotone.2.1 ⟨⟨true, []⟩, false, none⟩ [cont_op.do_register 1 0] rfl,
   C9_ready_monotone.2.2.2.1 [cont_op.do_register 1 0, cont_op.do_emplace 4]
     (by decide)⟩

/-- C10 counterexample: the two registration variants are not
observationally equivalent.  Under the same environment (anchor open and
empty at the first load, then holding node `⟨9,2⟩` pushed by a concurrent
waiter, then quiescent), the single-attempt variant of
src/sugar/main.cpp returns false — with the list still open — and links
nothing, while the retry-loop variant of src/tbbtest/main.cpp retries
and returns true with the node linked: different boolean, different
final chain. -/
theorem C10_variants_disagree :
    (try_register_sugar 4 2 ⟨false, []⟩ ⟨false, [⟨9, 2⟩]⟩).1 = false
    ∧ try_register_loop 4 2
        [⟨false, []⟩, ⟨false, [⟨9, 2⟩]⟩, ⟨false, [⟨9, 2⟩]⟩, ⟨false, [⟨9, 2⟩]⟩]
        = some (true, ⟨false, [⟨4, 2⟩, ⟨9, 2⟩]⟩)
    ∧ (⟨false, [⟨9, 2⟩]⟩ : cont_base).ready = false
    ∧ (try_register_sugar 4 2 ⟨false, []⟩ ⟨false, [⟨9, 2⟩]⟩).2
        ≠ (⟨false, [⟨4, 2⟩, ⟨9, 2⟩]⟩ : cont_base) := by
  decide

/-- C10 amended: when the anchor is unchanged between the load and the
CAS (no concurrent modification during the call, in particular any
quiescent execution), the retry-loop variant and the single-attempt
variant return the same boolean and leave the chain in the same state;
and the single-attempt variant returns false exactly when the list is
closed at its load or the anchor changed before its CAS — so false does
not imply closed in general. -/
theorem C10_equiv_when_quiescent :
    (∀ (t n : Nat) (s : cont_base),
        try_register_loop t n [s, s] = some (try_register_sugar t n s s))
    ∧ (∀ (t n : Nat) (s0 s1 : cont_base),
        ((try_register_sugar t n s0 s1).1 = false
          ↔ (s0.ready = true ∨ s1 ≠ s0))) := by
  constructor
  · intro t n s
    cases hs : s.ready <;>
      simp [try_register_loop, try_register_sugar, hs]
  · intro t n s0 s1
    by_cases h0 : s0.ready = true
    · simp [try_register_sugar, h0]
    · by_cases h1 : s1 = s0
      · simp [try_register_sugar, h0, h1]
      · simp [try_register_sugar, h0, h1]

/-- C10 amended witness: quiescent equivalence applied to a fresh open
cont, and the false-characterization applied to a closed cont. -/
theorem C10_equiv_when_quiescent_witness :
    try_register_loop 4 3 [cont_base_init, cont_base_init]
      = some (try_register_sugar 4 3 cont_base_init cont_base_init)
    ∧ (try_register_sugar 4 3 ⟨true, []⟩ ⟨true, []⟩).1 = false :=
  ⟨C10_equiv_when_quiescent.1 4 3 cont_base_init,
   (C10_equiv_when_quiescent.2 4 3 ⟨true, []⟩ ⟨true, []⟩).2 (Or.inl rfl)⟩

/-- Helper for C4: the notification walk decrements each task's
reference count once per visited node bound to it. -/
theorem notify_walk_counts (l : List cont_node) :
    ∀ (counts : Nat → Int) (tid : Nat),
      (notify_walk l counts).1 tid
        = counts tid - ((l.filter fun nd => nd.task == tid).length : Int) := by
  induction l with
  | nil => intro counts tid; simp [notify_walk]
  | cons nd rest ih =>
    intro counts tid
    by_cases h : nd.task = tid
    · subst h
      simp [notify_walk, ih, List.filter_cons, decrement_ref_count]
      ring
    · simp [notify_walk, ih, List.filter_cons, decrement_ref_count, h, Ne.symm h]

/-- Helper for C4: the spawned-task list of the walk depends only on the
counts of the tasks bound in the walked chain. -/
theorem notify_walk_spawns_congr (l : List cont_node) :
    ∀ c1 c2 : Nat → Int, (∀ nd ∈ l, c1 nd.task = c2 nd.task) →
      (notify_walk l c1).2 = (notify_walk l c2).2 := by
  induction l with
  | nil => intro c1 c2 _; simp [notify_walk]
  | cons nd rest ih =>
    intro c1 c2 hag
    have hhead : c1 nd.task = c2 nd.task := hag nd (List.mem_cons_self _ _)
    have hrest : ∀ nd2 ∈ rest,
        decrement_ref_count nd.task c1 nd2.task
          = decrement_ref_count nd.task c2 nd2.task := by
      intro nd2 hm
      simp [decrement_ref_count, hag nd2 (List.mem_cons_of_mem _ hm), hhead]
    have h2 := ih (decrement_ref_count nd.task c1)
      (decrement_ref_count nd.task c2) hrest
    simp only [notify_walk]
    rw [h2]
    simp [decrement_ref_count, hhead]

/-- Helper for C4: when the tasks bound in the chain are pairwise
distinct, the walk spawns exactly the tasks whose single decrement
brings their count to zero. -/
theorem notify_walk_spawns (l : List cont_node) :
    ∀ counts : Nat → Int, (l.map fun nd => nd.task).Nodup →
      (notify_walk l counts).2
        = (l.filter fun nd => counts nd.task - 1 == 0).map fun nd => nd.task := by
  induction l with
  | nil => intro counts _; simp [notify_walk]
  | cons nd rest ih =>
    intro counts hnd
    simp only [List.map_cons, List.nodup_cons] at hnd
    obtain ⟨hnotmem, hrest_nodup⟩ := hnd
    have hag : ∀ nd2 ∈ rest,
        decrement_ref_count nd.task counts nd2.task = counts nd2.task := by
      intro nd2 hm
      have hne : nd2.task ≠ nd.task := by
        intro he
        exact hnotmem (by rw [← he]; exact List.mem_map_of_mem _ hm)
      simp [decrement_ref_count, hne]
    have hcongr := notify_walk_spawns_congr rest
      (decrement_ref_count nd.task counts) counts hag
    simp only [notify_walk]
    rw [hcongr, ih counts hrest_nodup]
    by_cases h0 : counts nd.task - 1 = 0
    · simp [decrement_ref_count, h0, List.filter_cons]
    · simp [decrement_ref_count, h0, List.filter_cons]

/-- C4: closing an open cont makes the broadcast visit exactly the
nodes linked at the moment of closing, in chain order: every registered
node is visited, a node registered once is visited exactly once, no node
outside the chain is visited, each visited node decrements its task's
pending count exactly once (the final count of a task is its initial
count minus the number of its nodes in the chain), and — when the
chain's tasks are pairwise distinct — the walk spawns exactly the tasks
whose decrement reaches zero. -/
theorem C4_broadcast (s : cont_base) (counts : Nat → Int)
    (h : s.ready = false) :
    (set_ready s).visited = s.chain
    ∧ (∀ nd : cont_node, s.chain.Nodup → nd ∈ s.chain →
        (set_ready s).visited.count nd = 1)
    ∧ (∀ nd : cont_node, nd ∉ s.chain → nd ∉ (set_ready s).visited)
    ∧ (∀ tid : Nat, (notify_walk (set_ready s).visited counts).1 tid
        = counts tid
          - (((set_ready s).visited.filter fun nd => nd.task == tid).length : Int))
    ∧ ((s.chain.map fun nd => nd.task).Nodup →
        (notify_walk (set_ready s).visited counts).2
          = ((set_ready s).visited.filter fun nd => counts nd.task - 1 == 0).map
              fun nd => nd.task) := by
  have hv : (set_ready s).visited = s.chain := by simp [set_ready, h]
  refine ⟨hv, ?_, ?_, ?_, ?_⟩
  · intro nd hnd hmem
    rw [hv]
    exact List.count_eq_one_of_mem hnd hmem
  · intro nd hmem
    rw [hv]
    exact hmem
  · intro tid
    rw [hv]
    exact notify_walk_counts s.chain counts tid
  · intro hnd
    rw [hv]
    exact notify_walk_spawns s.chain counts hnd

/-- C4 witness: the theorem applied to an open cont with two registered
nodes for tasks 1 and 2, both with pending count 1: both are visited in
chain order and task 2's count reaches 0. -/
theorem C4_broadcast_witness :
    (set_ready ⟨false, [⟨1, 0⟩, ⟨2, 1⟩]⟩).visited = [⟨1, 0⟩, ⟨2, 1⟩]
    ∧ (notify_walk (set_ready ⟨false, [⟨1, 0⟩, ⟨2, 1⟩]⟩).visited
        (fun _ => 1)).1 2 = 0 :=
  ⟨(C4_broadcast ⟨false, [⟨1, 0⟩, ⟨2, 1⟩]⟩ (fun _ => 1) rfl).1,
   by
     rw [(C4_broadcast ⟨false, [⟨1, 0⟩, ⟨2, 1⟩]⟩ (fun _ => 1) rfl).2.2.2.1 2]
     decide⟩

/-- Helper for C5: closed form of the registration loop of
`spawn_when_ready` — one attempt event per cont in order (node id =
loop index), succeeding exactly on the conts that are open, with
`num_inputs_already_ok` equal to the number of conts already ready, and
no reference-count operation among the attempts. -/
theorem swr_reg_loop_eq (t : Nat) (conts : List cont_base) :
    ∀ i : Nat, swr_reg_loop t conts i
      = ((conts.enumFrom i).map fun p => swr_event.reg_attempt p.1 (!p.2.ready),
         (conts.filter fun c => c.ready).length) := by
  induction conts with
  | nil => intro i; simp [swr_reg_loop]
  | cons c rest ih =>
    intro i
    cases hc : c.ready <;>
      simp [swr_reg_loop, try_register_successor, ih (i + 1), List.filter_cons,
        hc, List.enumFrom, Nat.add_comm]

/-- C5: the exact action trace of `spawn_when_ready`, for both variants
(`guarded = false`: src/tbbtest/main.cpp; `guarded = true`:
src/sugar/main.cpp and src/sugar/define_task_block_example.h): first one
`add_ref_count(N)`, then the N registration attempts in order with no
reference-count operation among them, then a single bulk
`add_ref_count(-num_inputs_already_ok)` subtracting the number of
already-ready inputs (skipped by the guarded variant when that number is
0, in which case the count is unchanged, i.e. 0 is subtracted), followed
by the spawn when the count reached zero.  In particular no per-future
decrement ever occurs.  The final pending count is the entry count plus
N minus the number of already-ready inputs, in both variants. -/
theorem C5_single_bulk_subtraction (guarded : Bool) (t : Nat) (p0 : Int)
    (conts : List cont_base) :
    (spawn_when_ready guarded t p0 conts).trace
      = swr_event.add_ref conts.length
          :: ((conts.enumFrom 0).map fun p => swr_event.reg_attempt p.1 (!p.2.ready))
          ++ (if guarded = true ∧ (conts.filter fun c => c.ready).length = 0 then []
              else swr_event.add_ref (-((conts.filter fun c => c.ready).length : Int))
                :: (if p0 + conts.length - (conts.filter fun c => c.ready).length = 0
                    then [swr_event.spawn] else []))
    ∧ (spawn_when_ready guarded t p0 conts).pending
        = p0 + conts.length - (conts.filter fun c => c.ready).length := by
  simp only [spawn_when_ready, swr_reg_loop_eq t conts 0]
  cases guarded with
  | false => simp
  | true =>
    by_cases h0 : (conts.filter fun c => c.ready).length = 0
    · simp [h0]
    · simp [h0]
